import Mathlib

/-!
Verification development for the video-labeller annotation engine.

The definitions below are a shallow embedding of the program's core:
* the SQLite marker store (`SQLiteLabelRepo.py`): a `markers` table with a
  uniqueness constraint on the 6-tuple
  (subject_id, trial_id, event, relative_frame, cam_id, landmark),
  modelled as a list of `Marker` rows with `get_frame`, `update_point` and
  `create_point` operations;
* the frame catalog (`ImageRepo.py`): nested insertion-ordered dictionaries
  (modelled as association lists) from subject to trial to event to the list
  of CSV rows, with `get_events`, `get_rel_frames`, `get_cams` and frame
  resolution; Python's stable `sorted` is modelled by `List.insertionSort`;
* the labelling application (`labeller.py`): the `FrameLookup` sibling index,
  the `_sibling_frame_objects` neighbour resolution, the `_probe_frame` /
  `next_point` navigation odometer, and the `_set_marker` commit path.

Python floats only flow through the code (they are stored and compared, never
computed with), so coordinates are modelled as rationals.  Python `dict`s are
modelled as association lists with replace-on-insert semantics; `defaultdict`
reads are modelled with `Option.getD`.  Operations that can raise
(`IndexError`, a `None + int` `TypeError`, the navigation limit) return
`Option`/`Except` values.
-/

/-- One row of the SQLite `markers` table (`SQLiteLabelRepo.py`, schema
lines 38-52).  `id` is the integer primary key assigned by the store. -/
structure Marker where
  id : Nat
  subject_id : String
  trial_id : Int
  event : String
  relative_frame : Int
  cam_id : String
  landmark : String
  x : Rat
  y : Rat
deriving DecidableEq, Repr

/-- The 6-tuple that the schema's UNIQUE constraint covers. -/
def markerKey (m : Marker) : String × Int × String × Int × String × String :=
  (m.subject_id, m.trial_id, m.event, m.relative_frame, m.cam_id, m.landmark)

/-- The marker store's persistent state: the rows of the `markers` table. -/
abbrev MarkerDB := List Marker

/-- `SQLiteLabelRepo.get_frame` runs `query_select_frame`, which filters rows
by `subject_id`, `trial_id` and `relative_frame` only. -/
def get_frame (db : MarkerDB) (subject_id : String) (trial_id : Int)
    (relative_frame : Int) : List Marker :=
  db.filter fun m =>
    m.subject_id == subject_id && m.trial_id == trial_id &&
      m.relative_frame == relative_frame

/-- `SQLiteLabelRepo.update_point` runs `query_update_landmark`: set `x`, `y`
on the row whose `id` matches. -/
def update_point (db : MarkerDB) (point_id : Nat) (x y : Rat) : MarkerDB :=
  db.map fun m => if m.id == point_id then { m with x := x, y := y } else m

/-- The fresh rowid SQLite assigns on insert: one more than the largest
existing `id`. -/
def next_id (db : MarkerDB) : Nat :=
  db.foldr (fun m acc => max m.id acc) 0 + 1

/-- `SQLiteLabelRepo.create_point` runs `query_insert_landmark`: insert a new
row, with the `id` assigned by the store. -/
def create_point (db : MarkerDB) (subject_id : String) (trial_id : Int)
    (event_name : String) (relative_frame : Int) (cam_id : String)
    (landmark : String) (x y : Rat) : MarkerDB :=
  db ++ [{ id := next_id db, subject_id := subject_id, trial_id := trial_id,
           event := event_name, relative_frame := relative_frame,
           cam_id := cam_id, landmark := landmark, x := x, y := y }]

/-- One parsed row of the input CSV (`ImageRepo.py`, `CsvFrame`): the fields
the core reads.  `frame` is the absolute frame counter. -/
structure CsvFrame where
  subject_id : String
  throw_id : Int
  cam_id : String
  event_name : String
  rel_frame : Int
  frame : Int
deriving DecidableEq, Repr

/-- The innermost level of `ImageRepo.by_subject`: event name to rows. -/
abbrev EventMap := List (String × List CsvFrame)

/-- The middle level of `ImageRepo.by_subject`: trial id to event map. -/
abbrev TrialMap := List (Int × EventMap)

/-- `ImageRepo.by_subject`: subject id to trial map, insertion-ordered. -/
abbrev BySubject := List (String × TrialMap)

/-- `MissingSubjectException` raised by `ImageRepo.get_events`. -/
inductive ImageRepoError where
  | missingSubject (subject_id : String)
deriving DecidableEq, Repr

/-- The fixed priority list `order` inside `ImageRepo._event_key`. -/
def event_order : List String := ["rltd", "bltd0", "bltd", "release"]

/-- `ImageRepo._event_key`: index in the priority list, or the list's length
for events absent from it. -/
def event_key (event : String) : Nat :=
  if event ∈ event_order then event_order.indexOf event else event_order.length

/-- The comparison Python's `sorted(..., key=self._event_key)` sorts by. -/
def event_le (a b : String) : Prop := event_key a ≤ event_key b

instance : DecidableRel event_le :=
  fun a b => inferInstanceAs (Decidable (event_key a ≤ event_key b))

instance : IsTotal String event_le := ⟨fun x y => Nat.le_total (event_key x) (event_key y)⟩

instance : IsTrans String event_le := ⟨fun _ _ _ => Nat.le_trans⟩

/-- Python's `sorted` is a stable sort; `List.insertionSort` is stable. -/
def sort_events (evts : List String) : List String :=
  List.insertionSort event_le evts

/-- `ImageRepo.get_events`: raise `MissingSubjectException` for an unknown
subject, otherwise sort the trial's event-dict keys by `_event_key`.  The
trial access goes through a `defaultdict`, so an unknown trial yields the
empty event dict. -/
def get_events (repo : BySubject) (subject_id : String) (trial_id : Int) :
    Except ImageRepoError (List String) :=
  match List.lookup subject_id repo with
  | none => .error (.missingSubject subject_id)
  | some trials =>
      .ok (sort_events (((List.lookup trial_id trials).getD []).map (·.1)))

/-- `ImageRepo.get_cams`: the configured camera order. -/
def get_cams : List String := ["oe", "ot"]

/-- The row list `self.by_subject[subject_id][trial_id][event_name]`; every
level is a `defaultdict`, so missing keys yield empty containers. -/
def frames_of (repo : BySubject) (subject_id : String) (trial_id : Int)
    (event_name : String) : List CsvFrame :=
  (List.lookup event_name
    ((List.lookup trial_id ((List.lookup subject_id repo).getD [])).getD [])).getD []

/-- Python's `sorted` on a list of ints. -/
def sort_ints (l : List Int) : List Int :=
  List.insertionSort (α := Int) (· ≤ ·) l

/-- `ImageRepo.get_rel_frames`: when `cam_id` is `None` the code picks
`frames[0]["cam_id"]` (an `IndexError`, hence `none` here, if the event has
no rows), then returns the sorted `rel_frame`s of the rows with that
camera. -/
def get_rel_frames (repo : BySubject) (subject_id : String) (trial_id : Int)
    (event_name : String) (cam_id : Option String) : Option (List Int) :=
  let frames := frames_of repo subject_id trial_id event_name
  let cid : Option String :=
    match cam_id with
    | some c => some c
    | none => frames.head?.map (·.cam_id)
  cid.map fun c =>
    sort_ints ((frames.filter fun f => f.cam_id == c).map (·.rel_frame))

/-- `ImageRepo.get_frame`: the rows of the event whose `rel_frame` matches,
or `None` when there is no match (the caller only uses existence and the
matched rows). -/
def image_get_frame (repo : BySubject) (subject_id : String) (trial_id : Int)
    (event_name : String) (rel_frame : Int) : Option (List CsvFrame) :=
  let m := (frames_of repo subject_id trial_id event_name).filter
    fun row => row.rel_frame == rel_frame
  if m.isEmpty then none else some m

/-- One entry of `FrameLookup.lookup` (`labeller.py`, `FrameLookupEntry`). -/
structure FrameLookupEntry where
  event : String
  cam_id : String
  rel_frame : Int
  abs_frame : Int
deriving DecidableEq, Repr

/-- `FrameLookup._build_lookup`: group the catalog rows of one
(subject, trial) by absolute frame, in iteration order. -/
def build_lookup (rows : List CsvFrame) : Int → List FrameLookupEntry :=
  fun abs_frame =>
    (rows.filter fun f => f.frame == abs_frame).map fun f =>
      { event := f.event_name, cam_id := f.cam_id,
        rel_frame := f.rel_frame, abs_frame := f.frame }

/-- `FrameLookup._build_lookup_relframe`: map (rel_frame, event) to the
absolute frame of the last row written (last-write-wins), `none` when no row
matches (the `dict.get(event, None)` default). -/
def build_lookup_relframe (rows : List CsvFrame) :
    Int → String → Option Int :=
  fun rel_frame event =>
    ((rows.filter fun f =>
        f.rel_frame == rel_frame && f.event_name == event).getLast?).map (·.frame)

/-- The sibling index built once per (subject, trial): `by_frame` and
`by_relframe` of `labeller.py`'s `FrameLookup`. -/
structure FrameLookup where
  by_frame_fn : Int → List FrameLookupEntry
  by_relframe_fn : String → Int → Option Int

/-- `FrameLookup.__init__` over the rows of `get_all_frames`. -/
def FrameLookup.of_rows (rows : List CsvFrame) : FrameLookup :=
  { by_frame_fn := build_lookup rows,
    by_relframe_fn := fun event rel_frame => build_lookup_relframe rows rel_frame event }

/-- The pieces of `LabellerApp` state that `_sibling_frame_objects` reads:
the sibling index, the marker store and the (subject, trial) scope. -/
structure SiblingCtx where
  lookup : FrameLookup
  db : MarkerDB
  subject_id : String
  trial_id : Int

/-- Python dict assignment `objs[key] = marker`: replace in place if the key
exists, append otherwise. -/
def insert_obj : List (String × Marker) → String → Marker → List (String × Marker)
  | [], k, v => [(k, v)]
  | (k', v') :: rest, k, v =>
      if k' == k then (k, v) :: rest else (k', v') :: insert_obj rest k v

/-- The fixed offset schedule of `_sibling_frame_objects`. -/
def sibling_offsets : List (String × Int) :=
  [("prev", -1), ("next", 1), ("prev", -2), ("next", 2)]

/-- The loop state of `_sibling_frame_objects`: the `objs` dict and the
`found` flags for the two directions. -/
structure SiblingAcc where
  objs : List (String × Marker)
  found_prev : Bool
  found_next : Bool

/-- The body of the inner marker loop of `_sibling_frame_objects`: skip a
marker unless it matches the current camera, the current landmark and the
entry's event, otherwise write it into the dict under
`prefix + "-" + landmark`. -/
def sibling_step (pfx cam_id landmark ev : String)
    (o : List (String × Marker)) (marker : Marker) : List (String × Marker) :=
  if marker.cam_id ≠ cam_id then o
  else if marker.landmark ≠ landmark then o
  else if marker.event ≠ ev then o
  else insert_obj o (pfx ++ "-" ++ marker.landmark) marker

/-- The inner marker loop of `_sibling_frame_objects` for one lookup entry:
fetch the markers of the entry's relative frame from the store and run
`sibling_step` over them. -/
def add_entry_markers (ctx : SiblingCtx) (pfx : String)
    (cam_id landmark : String) (entry : FrameLookupEntry)
    (objs : List (String × Marker)) : List (String × Marker) :=
  (get_frame ctx.db ctx.subject_id ctx.trial_id entry.rel_frame).foldl
    (sibling_step pfx cam_id landmark entry.event) objs

/-- One iteration of the offset loop of `_sibling_frame_objects`: skip when
the absolute frame has no entries or the direction was already found,
otherwise mark the direction found and process every entry. -/
def process_offset (ctx : SiblingCtx) (cam_id landmark : String)
    (abs_frame : Int) (acc : SiblingAcc) (po : String × Int) : SiblingAcc :=
  let entries := ctx.lookup.by_frame_fn (abs_frame + po.2)
  if entries.isEmpty then acc
  else if (if po.1 == "prev" then acc.found_prev else acc.found_next) then acc
  else
    let acc' : SiblingAcc :=
      if po.1 == "prev" then { acc with found_prev := true }
      else { acc with found_next := true }
    { acc' with
      objs := entries.foldl
        (fun o e => add_entry_markers ctx po.1 cam_id landmark e o) acc'.objs }

/-- `LabellerApp._sibling_frame_objects`: resolve the current absolute frame
through `by_relframe` (a `None` result makes the Python code fail on
`None + offset`, hence `none` here), then run the offset schedule. -/
def sibling_frame_objects (ctx : SiblingCtx) (event : String)
    (rel_frame : Int) (cam_id landmark : String) :
    Option (List (String × Marker)) :=
  match ctx.lookup.by_relframe_fn event rel_frame with
  | none => none
  | some abs_frame =>
      some (sibling_offsets.foldl
        (process_offset ctx cam_id landmark abs_frame)
        { objs := [], found_prev := false, found_next := false }).objs

/-- The markers at a given absolute frame that `_sibling_frame_objects`'s
filters accept: for each lookup entry of the frame, the stored markers of
the entry's relative frame matching the current camera, the current
landmark and the entry's event, in processing order. -/
def sibling_matches (ctx : SiblingCtx) (cam_id landmark : String)
    (abs_frame : Int) : List Marker :=
  ((ctx.lookup.by_frame_fn abs_frame).map fun e =>
    (get_frame ctx.db ctx.subject_id ctx.trial_id e.rel_frame).filter
      fun m => m.cam_id == cam_id && m.landmark == landmark && m.event == e.event).flatten

/-- The four navigation indices of `LabellerApp`. -/
structure NavState where
  i_frame : Nat
  i_event : Nat
  i_kp : Nat
  i_cam : Nat
deriving DecidableEq, Repr

/-- The `LabellerApp` fields that `_probe_frame`, `has_frame` and
`next_point` read.  `rel_frames_of` is the catalog collaborator call
`image_repo.get_rel_frames(subject, trial, event)` (default camera) and
`catalog_has_frame` is the existence of
`image_repo.get_frame(subject, trial, event, rel_frame)`. -/
structure NavEnv where
  event_names : List String
  avail_landmarks : List String
  cam_ids : List String
  rel_frames_of : String → List Int
  catalog_has_frame : String → Int → Bool

/-- `LabellerApp._probe_frame`: one mixed-radix odometer step over
(frame, event, landmark, camera) computed from the current indices.  `none`
models the Python exceptions: an out-of-range current event index (raised by
`_current_event_name`) or a modulo by zero on an empty axis. -/
def probe_frame (env : NavEnv) (st : NavState) : Option NavState :=
  match env.event_names.get? st.i_event with
  | none => none
  | some event_name =>
    let n_frames := (env.rel_frames_of event_name).length
    if n_frames = 0 then none
    else
      let i_frame := (st.i_frame + 1) % n_frames
      if i_frame > 0 then some { st with i_frame := i_frame }
      else
        let n_events := env.event_names.length
        let i_event := (st.i_event + 1) % n_events
        if i_event > 0 then some { st with i_frame := i_frame, i_event := i_event }
        else
          let n_kps := env.avail_landmarks.length
          if n_kps = 0 then none
          else
            let i_kp := (st.i_kp + 1) % n_kps
            if i_kp > 0 then
              some { st with i_frame := i_frame, i_event := i_event, i_kp := i_kp }
            else
              let n_cams := env.cam_ids.length
              if n_cams = 0 then none
              else some { i_frame := i_frame, i_event := i_event, i_kp := i_kp,
                          i_cam := (st.i_cam + 1) % n_cams }

/-- `LabellerApp.has_frame` at a candidate (event index, frame index):
`none` models the `IndexError`s on `event_names[i_event]` and
`rel_frames[i_frame]`, otherwise whether the catalog resolves the frame. -/
def has_frame (env : NavEnv) (i_event i_frame : Nat) : Option Bool :=
  match env.event_names.get? i_event with
  | none => none
  | some event_name =>
    match (env.rel_frames_of event_name).get? i_frame with
    | none => none
    | some rel_frame => some (env.catalog_has_frame event_name rel_frame)

/-- The failures of `next_point`: the probe limit (`Exception("Next frame
not found")`) and a propagated catalog `IndexError`. -/
inductive NavError where
  | exhausted
  | indexError
deriving DecidableEq, Repr

/-- The `while i < limit` loop of `LabellerApp.next_point`, with `fuel` the
remaining iterations (`limit - i`) and `i` the Python counter.  Each
iteration recomputes `self._probe_frame()` from the unmodified instance
state and checks `has_frame`; on a hit the loop breaks, after which the code
still raises when `i == limit`. -/
def next_point_go (env : NavEnv) (st : NavState) :
    Nat → Nat → Except NavError NavState
  | 0, _ => .error .exhausted
  | fuel + 1, i =>
    match probe_frame env st with
    | none => .error .indexError
    | some cand =>
      match has_frame env cand.i_event cand.i_frame with
      | none => .error .indexError
      | some true => if i + 1 = 1000 then .error .exhausted else .ok cand
      | some false => next_point_go env st fuel (i + 1)

/-- `LabellerApp.next_point` with `limit = 1000`: the found candidate's
indices on success, an exception otherwise. -/
def next_point (env : NavEnv) (st : NavState) : Except NavError NavState :=
  next_point_go env st 1000 0

/-- The navigation state after a `next_point` call: the four indices are
assigned only after the loop, so a raise leaves them unchanged. -/
def next_point_state (env : NavEnv) (st : NavState) : NavState :=
  match next_point env st with
  | .ok st' => st'
  | .error _ => st

/-- The resolved position of one commit: the current (subject, trial, event,
relative frame, camera, landmark) of `LabellerApp`. -/
structure LabelPos where
  subject_id : String
  trial_id : Int
  event : String
  relative_frame : Int
  cam_id : String
  landmark : String
deriving DecidableEq, Repr

/-- The 6-tuple of a position, for comparison with `markerKey`. -/
def posKey (p : LabelPos) : String × Int × String × Int × String × String :=
  (p.subject_id, p.trial_id, p.event, p.relative_frame, p.cam_id, p.landmark)

/-- `LabellerApp.match_landmark`: the filter applied to the loaded working
set when resolving the current landmark's marker. -/
def match_landmark (event cam_id landmark : String) (other : Marker) : Bool :=
  other.landmark == landmark && other.cam_id == cam_id && other.event == event

/-- `LabellerApp._current_landmark_object`: the first marker of the working
set (`get_frame` at the current relative frame) matching the current
landmark, camera and event. -/
def current_landmark_object (db : MarkerDB) (p : LabelPos) : Option Marker :=
  ((get_frame db p.subject_id p.trial_id p.relative_frame).filter
    (match_landmark p.event p.cam_id p.landmark)).head?

/-- The store effect of `LabellerApp._set_marker` at a resolved position:
update the existing row's coordinates when the working set resolves one,
insert a new row otherwise. -/
def set_marker (db : MarkerDB) (p : LabelPos) (x y : Rat) : MarkerDB :=
  match current_landmark_object db p with
  | some m => update_point db m.id x y
  | none =>
      create_point db p.subject_id p.trial_id p.event p.relative_frame
        p.cam_id p.landmark x y

/-- A sequence of commits at the same resolved position; each commit reloads
the working set from the store, as the application does on arrival at a
position. -/
def commit_seq (db : MarkerDB) (p : LabelPos) (cs : List (Rat × Rat)) : MarkerDB :=
  cs.foldl (fun d c => set_marker d p c.1 c.2) db

/-- The store invariant the schema enforces: distinct rows have distinct ids
(primary key) and distinct 6-tuples (UNIQUE constraint). -/
abbrev StoreInv (db : MarkerDB) : Prop :=
  db.Pairwise fun a b => a.id ≠ b.id ∧ markerKey a ≠ markerKey b

/-! Concrete inputs used by the instance theorems below. -/

/-- A navigation environment whose immediate odometer candidate (frame
index 1, relative frame 1) has no catalog frame while the candidate after
it (frame index 2, relative frame 2) does. -/
def envC2 : NavEnv :=
  { event_names := ["e"], avail_landmarks := ["lm"], cam_ids := ["c"],
    rel_frames_of := fun _ => [0, 1, 2],
    catalog_has_frame := fun _ r => decide (r ≠ 1) }

/-- A navigation environment where only relative frame 30 (frame index 2)
has a catalog frame. -/
def envC3 : NavEnv :=
  { event_names := ["ev"], avail_landmarks := ["k"], cam_ids := ["c0"],
    rel_frames_of := fun _ => [10, 20, 30],
    catalog_has_frame := fun _ r => decide (r = 30) }

/-- A two-event environment with every frame present, for the odometer
carry instance. -/
def envC5 : NavEnv :=
  { event_names := ["a", "b"], avail_landmarks := ["lm"], cam_ids := ["c"],
    rel_frames_of := fun _ => [0],
    catalog_has_frame := fun _ _ => true }

/-- A catalog with one known subject whose trial 3 has an empty event
dict. -/
def repoC10 : BySubject := [("S7", [(3, [])])]

/-- A catalog whose single trial holds the four events of the ordering
example (the event row lists are irrelevant to `get_events`). -/
def repoC6 : BySubject :=
  [("S1", [(2, [("release", []), ("rltd", []), ("bltd", []), ("unknownX", [])])])]

/-- An event whose first CSV row uses camera `ot`: the implicit default of
`get_rel_frames`. -/
def rowC8a : CsvFrame :=
  { subject_id := "S", throw_id := 1, cam_id := "ot", event_name := "evt",
    rel_frame := 5, frame := 100 }

/-- A second row of the same event using camera `oe`, the first configured
camera. -/
def rowC8b : CsvFrame :=
  { subject_id := "S", throw_id := 1, cam_id := "oe", event_name := "evt",
    rel_frame := 3, frame := 101 }

/-- The catalog holding `rowC8a` (first) and `rowC8b`. -/
def repoC8 : BySubject := [("S", [(1, [("evt", [rowC8a, rowC8b])])])]

/-- Sibling-index entry at absolute frame 99 (offset -1 from 100): its
relative frame 4 has no stored marker. -/
def entryC4a : FrameLookupEntry :=
  { event := "bltd0", cam_id := "oe", rel_frame := 4, abs_frame := 99 }

/-- Sibling-index entry at absolute frame 98 (offset -2 from 100): its
relative frame 3 does have a stored marker. -/
def entryC4b : FrameLookupEntry :=
  { event := "bltd0", cam_id := "oe", rel_frame := 3, abs_frame := 98 }

/-- The stored marker at offset -2 matching the current camera and
landmark. -/
def markerC4 : Marker :=
  { id := 1, subject_id := "S101", trial_id := 1, event := "bltd0",
    relative_frame := 3, cam_id := "oe", landmark := "RElbow", x := 7, y := 8 }

/-- A sibling index where the current position resolves to absolute frame
100, offset -1 has entries, and offset -2 has entries. -/
def lookupC4 : FrameLookup :=
  { by_frame_fn := fun a => if a = 99 then [entryC4a] else if a = 98 then [entryC4b] else [],
    by_relframe_fn := fun e r => if e = "bltd0" ∧ r = 5 then some 100 else none }

/-- The sibling context whose store holds only the offset -2 marker. -/
def ctxC4 : SiblingCtx :=
  { lookup := lookupC4, db := [markerC4], subject_id := "S101", trial_id := 1 }

/-- A stored marker at offset -1 (relative frame 4) matching the current
camera and landmark. -/
def markerC4w : Marker :=
  { id := 2, subject_id := "S101", trial_id := 1, event := "bltd0",
    relative_frame := 4, cam_id := "oe", landmark := "RElbow", x := 9, y := 10 }

/-- The sibling context whose store holds matching markers at both offset
-1 and offset -2. -/
def ctxC4w : SiblingCtx :=
  { lookup := lookupC4, db := [markerC4, markerC4w], subject_id := "S101", trial_id := 1 }

/-- The position of the spec's commit scenario. -/
def posW : LabelPos :=
  { subject_id := "S101", trial_id := 1, event := "bltd0",
    relative_frame := -8, cam_id := "oe", landmark := "RElbow" }

/-! Helper lemmas. -/

/-- Membership in the store's relative-frame query. -/
theorem mem_get_frame {db : MarkerDB} {s : String} {t rf : Int} {m : Marker} :
    m ∈ get_frame db s t rf ↔
      m ∈ db ∧ m.subject_id = s ∧ m.trial_id = t ∧ m.relative_frame = rf := by
  simp [get_frame, List.mem_filter, and_assoc]

/-- Key equality spelled out field by field. -/
theorem markerKey_eq_posKey {m : Marker} {p : LabelPos} :
    markerKey m = posKey p ↔
      m.subject_id = p.subject_id ∧ m.trial_id = p.trial_id ∧ m.event = p.event ∧
        m.relative_frame = p.relative_frame ∧ m.cam_id = p.cam_id ∧
        m.landmark = p.landmark := by
  simp [markerKey, posKey, Prod.ext_iff]

/-- When the working set resolves no current marker, no row has the
position's 6-tuple. -/
theorem clo_none {db : MarkerDB} {p : LabelPos}
    (h : current_landmark_object db p = none) :
    ∀ m ∈ db, markerKey m ≠ posKey p := by
  unfold current_landmark_object at h
  rw [List.head?_eq_none_iff, List.filter_eq_nil_iff] at h
  intro m hm hk
  rw [markerKey_eq_posKey] at hk
  obtain ⟨h1, h2, h3, h4, h5, h6⟩ := hk
  exact h m (mem_get_frame.mpr ⟨hm, h1, h2, h4⟩)
    (by simp [match_landmark, h3, h5, h6])

/-- A resolved current marker is a stored row with the position's
6-tuple. -/
theorem clo_some {db : MarkerDB} {p : LabelPos} {m : Marker}
    (h : current_landmark_object db p = some m) :
    m ∈ db ∧ markerKey m = posKey p := by
  unfold current_landmark_object at h
  cases hL : (get_frame db p.subject_id p.trial_id p.relative_frame).filter
      (match_landmark p.event p.cam_id p.landmark) with
  | nil => rw [hL] at h; exact absurd h (by simp)
  | cons c cs =>
    rw [hL] at h
    have hm : m = c := by simpa using h.symm
    subst hm
    have hmem : m ∈ (get_frame db p.subject_id p.trial_id p.relative_frame).filter
        (match_landmark p.event p.cam_id p.landmark) := by
      rw [hL]; exact List.mem_cons_self _ _
    obtain ⟨hgf, hml⟩ := List.mem_filter.mp hmem
    obtain ⟨hdb, h1, h2, h4⟩ := mem_get_frame.mp hgf
    simp [match_landmark] at hml
    obtain ⟨⟨hl1, hl2⟩, hl3⟩ := hml
    exact ⟨hdb, markerKey_eq_posKey.mpr ⟨h1, h2, hl3, h4, hl2, hl1⟩⟩

/-- Every stored id is bounded by the fold in `next_id`. -/
theorem id_le_fold {db : MarkerDB} {m : Marker} (hm : m ∈ db) :
    m.id ≤ db.foldr (fun m acc => max m.id acc) 0 := by
  induction db with
  | nil => cases hm
  | cons a rest ih =>
    rcases List.mem_cons.mp hm with rfl | hm'
    · exact Nat.le_max_left _ _
    · exact le_trans (ih hm') (Nat.le_max_right _ _)

/-- The fresh id is strictly larger than every stored id. -/
theorem mem_id_lt_next {db : MarkerDB} {m : Marker} (hm : m ∈ db) :
    m.id < next_id db :=
  Nat.lt_succ_of_le (id_le_fold hm)

/-- `update_point` preserves the store invariant: it changes neither ids
nor 6-tuples. -/
theorem StoreInv_update {db : MarkerDB} {pid : Nat} {x y : Rat}
    (h : StoreInv db) : StoreInv (update_point db pid x y) := by
  unfold StoreInv update_point
  rw [List.pairwise_map]
  refine h.imp ?_
  intro a b hab
  have hid : ∀ c : Marker,
      (if c.id == pid then { c with x := x, y := y } else c).id = c.id := by
    intro c; split <;> rfl
  have hkey : ∀ c : Marker,
      markerKey (if c.id == pid then { c with x := x, y := y } else c) = markerKey c := by
    intro c; split <;> rfl
  rw [hid, hid, hkey, hkey]
  exact hab

/-- `create_point` preserves the store invariant when no row already has
the inserted 6-tuple. -/
theorem StoreInv_create {db : MarkerDB} {p : LabelPos} {x y : Rat}
    (h : StoreInv db) (hnone : ∀ m ∈ db, markerKey m ≠ posKey p) :
    StoreInv (create_point db p.subject_id p.trial_id p.event p.relative_frame
      p.cam_id p.landmark x y) := by
  unfold StoreInv create_point
  rw [List.pairwise_append]
  refine ⟨h, List.pairwise_singleton _ _, ?_⟩
  intro a ha b hb
  simp only [List.mem_singleton] at hb
  subst hb
  refine ⟨Nat.ne_of_lt (mem_id_lt_next ha), ?_⟩
  intro hk
  exact hnone a ha hk

/-- Updating the resolved row rewrites exactly the one row with the
position's 6-tuple. -/
theorem rows_update_of_mem {p : LabelPos} {x y : Rat} :
    ∀ {db : MarkerDB}, StoreInv db → ∀ {m : Marker}, m ∈ db →
      markerKey m = posKey p →
      (update_point db m.id x y).filter (fun a => markerKey a == posKey p) =
        [{ m with x := x, y := y }] := by
  intro db
  induction db with
  | nil => intro _ m hm; cases hm
  | cons a rest ih =>
    intro hinv m hm hk
    obtain ⟨ha, hrest⟩ := List.pairwise_cons.mp hinv
    have hcons : update_point (a :: rest) m.id x y =
        (if a.id == m.id then { a with x := x, y := y } else a) ::
          update_point rest m.id x y := rfl
    rcases List.mem_cons.mp hm with rfl | hm'
    · rw [hcons, if_pos (by simp)]
      rw [List.filter_cons_of_pos (by simp; exact hk)]
      have htail : (update_point rest m.id x y).filter
          (fun a => markerKey a == posKey p) = [] := by
        rw [List.filter_eq_nil_iff]
        intro c hc
        simp only [update_point, List.mem_map] at hc
        obtain ⟨b, hb, rfl⟩ := hc
        have hbid : ¬(b.id == m.id) = true := by
          simp; exact fun hbm => (ha b hb).1 hbm.symm
        rw [if_neg hbid]
        simp
        rw [← hk]
        exact fun hbm => (ha b hb).2 hbm.symm
      rw [htail]
    · have haid : ¬(a.id == m.id) = true := by
        simp; exact (ha m hm').1
      rw [hcons, if_neg haid]
      rw [List.filter_cons_of_neg (by simp; rw [← hk]; exact (ha m hm').2)]
      exact ih hrest hm' hk

/-- Inserting at a fresh position appends exactly one row with the
position's 6-tuple. -/
theorem rows_create {db : MarkerDB} {p : LabelPos} {x y : Rat}
    (hnone : ∀ m ∈ db, markerKey m ≠ posKey p) :
    (create_point db p.subject_id p.trial_id p.event p.relative_frame
        p.cam_id p.landmark x y).filter (fun a => markerKey a == posKey p) =
      [{ id := next_id db, subject_id := p.subject_id, trial_id := p.trial_id,
         event := p.event, relative_frame := p.relative_frame,
         cam_id := p.cam_id, landmark := p.landmark, x := x, y := y }] := by
  unfold create_point
  rw [List.filter_append]
  have h1 : db.filter (fun a => markerKey a == posKey p) = [] := by
    rw [List.filter_eq_nil_iff]
    intro m hm
    simp
    exact hnone m hm
  rw [h1]
  simp [markerKey, posKey]

/-- One commit leaves the store invariant intact and exactly one row with
the position's 6-tuple, carrying the committed coordinates. -/
theorem set_marker_spec {db : MarkerDB} {p : LabelPos} {x y : Rat}
    (h : StoreInv db) :
    StoreInv (set_marker db p x y) ∧
      ((set_marker db p x y).filter (fun a => markerKey a == posKey p)).map
        (fun a => (a.x, a.y)) = [(x, y)] := by
  unfold set_marker
  cases hc : current_landmark_object db p with
  | some m =>
    obtain ⟨hm, hk⟩ := clo_some hc
    exact ⟨StoreInv_update h, by rw [rows_update_of_mem h hm hk]; rfl⟩
  | none =>
    have hnone := clo_none hc
    exact ⟨StoreInv_create h hnone, by rw [rows_create hnone]; rfl⟩

/-- C1: for every sequence of commit calls targeting the same
(subject, trial, event, relative_frame, camera, landmark) 6-tuple, after
the sequence exactly one Marker row exists for that tuple and its (x, y)
equal the last commit's coordinates: the first commit at a position inserts
a new row and every later commit updates that row in place, never creating
a second row for the tuple. -/
theorem upsert_last_write_wins (db : MarkerDB) (p : LabelPos)
    (cs : List (Rat × Rat)) (hinv : StoreInv db) (hne : cs ≠ []) :
    ((commit_seq db p cs).filter (fun a => markerKey a == posKey p)).map
        (fun a => (a.x, a.y)) = [cs.getLast hne] := by
  induction cs generalizing db with
  | nil => exact absurd rfl hne
  | cons c cs ih =>
    cases cs with
    | nil =>
      simpa [commit_seq] using (set_marker_spec (p := p) (x := c.1) (y := c.2) hinv).2
    | cons c' cs'' =>
      have hspec := set_marker_spec (p := p) (x := c.1) (y := c.2) hinv
      have hmain := ih (set_marker db p c.1 c.2) hspec.1 (by simp)
      have hstep : commit_seq db p (c :: c' :: cs'') =
          commit_seq (set_marker db p c.1 c.2) p (c' :: cs'') := rfl
      rw [hstep, hmain]
      congr 1

/-- Witness for C1: two commits at the spec's scenario position on an empty
store leave exactly one row carrying the second commit's coordinates. -/
theorem upsert_last_write_wins_witness :
    StoreInv ([] : MarkerDB) ∧
      ((commit_seq [] posW [(1, 2), (3, 4)]).filter
          (fun a => markerKey a == posKey posW)).map (fun a => (a.x, a.y)) =
        [((3 : Rat), (4 : Rat))] := by
  refine ⟨List.Pairwise.nil, ?_⟩
  simpa using upsert_last_write_wins [] posW [(1, 2), (3, 4)]
    List.Pairwise.nil (by simp)

/-- C7: `get_frame` returns exactly the persisted markers whose subject,
trial and relative frame match, with no filtering on event, camera or
landmark. -/
theorem get_frame_no_event_filter (db : MarkerDB) (s : String) (t rf : Int)
    (m : Marker) :
    m ∈ get_frame db s t rf ↔
      m ∈ db ∧ m.subject_id = s ∧ m.trial_id = t ∧ m.relative_frame = rf :=
  mem_get_frame

/-- C9: `get_events` fails with `MissingSubjectException` exactly when the
subject is missing from the catalog, and returns normally otherwise. -/
theorem get_events_missing_subject (repo : BySubject) (s : String) (t : Int) :
    (get_events repo s t = .error (.missingSubject s) ↔
        List.lookup s repo = none) ∧
      (List.lookup s repo = none ∨ ∃ evts, get_events repo s t = .ok evts) := by
  cases hl : List.lookup s repo with
  | none => exact ⟨by simp [get_events, hl], Or.inl rfl⟩
  | some trials =>
    constructor
    · constructor
      · intro h; simp [get_events, hl] at h
      · intro h; simp at h
    · exact Or.inr ⟨sort_events (((List.lookup t trials).getD []).map (·.1)),
        by simp [get_events, hl]⟩

/-- C10: for a known subject and a trial id absent from (or empty in) its
trial dict, `get_events` returns the empty list without error. -/
theorem get_events_unknown_trial (repo : BySubject) (s : String) (t : Int)
    (trials : TrialMap) (hs : List.lookup s repo = some trials)
    (ht : List.lookup t trials = none ∨ List.lookup t trials = some []) :
    get_events repo s t = .ok [] := by
  rcases ht with ht | ht <;>
    simp [get_events, hs, ht, sort_events, List.insertionSort]

/-- Witness for C10: subject `S7` is known, trial 9 is absent, and the call
returns the empty list. -/
theorem get_events_unknown_trial_witness :
    List.lookup "S7" repoC10 = some [(3, [])] ∧
      List.lookup (9 : Int) [((3 : Int), ([] : EventMap))] = none ∧
      get_events repoC10 "S7" 9 = .ok [] :=
  ⟨by decide, by decide,
    get_events_unknown_trial repoC10 "S7" 9 [(3, [])] (by decide)
      (Or.inl (by decide))⟩

/-- C8 counterexample: without a camera argument `get_rel_frames` filters by
the first row's camera (`ot` here), not by the first configured camera
(`oe`), and the two give different frame lists. -/
theorem get_rel_frames_default_cex :
    get_rel_frames repoC8 "S" 1 "evt" none = some [5] ∧
      get_cams.head? = some "oe" ∧
      get_rel_frames repoC8 "S" 1 "evt" (some "oe") = some [3] :=
  ⟨rfl, rfl, rfl⟩

/-- C8 amended: the default camera of `get_rel_frames` is the camera of the
event's first frame row — a per-event, data-dependent default. -/
theorem get_rel_frames_default_camera (repo : BySubject) (s : String)
    (t : Int) (e : String) (f0 : CsvFrame)
    (h : (frames_of repo s t e).head? = some f0) :
    get_rel_frames repo s t e none = get_rel_frames repo s t e (some f0.cam_id) := by
  simp [get_rel_frames, h]

/-- Witness for the amended C8: on the concrete catalog the default call
equals the call with the first row's camera. -/
theorem get_rel_frames_default_camera_witness :
    (frames_of repoC8 "S" 1 "evt").head? = some rowC8a ∧
      get_rel_frames repoC8 "S" 1 "evt" none =
        get_rel_frames repoC8 "S" 1 "evt" (some rowC8a.cam_id) :=
  ⟨rfl, get_rel_frames_default_camera repoC8 "S" 1 "evt" rowC8a rfl⟩

/-- Events outside the priority list all get the maximal key. -/
theorem event_key_unlisted {e : String} (h : e ∉ event_order) :
    event_key e = event_order.length := by
  simp [event_key, h]

/-- Stability of the event sort on the unlisted events: they keep their
source order. -/
theorem filter_unlisted_sort_events (l : List String) :
    (sort_events l).filter (fun e => decide (e ∉ event_order)) =
      l.filter (fun e => decide (e ∉ event_order)) := by
  set p : String → Bool := fun e => decide (e ∉ event_order) with hp
  have hmemp : ∀ a ∈ l.filter p, a ∉ event_order := by
    intro a ha
    have := List.of_mem_filter ha
    rw [hp] at this
    simpa using this
  have hpair : (l.filter p).Pairwise event_le := by
    apply List.pairwise_of_forall_mem_list
    intro a ha b hb
    unfold event_le
    rw [event_key_unlisted (hmemp a ha), event_key_unlisted (hmemp b hb)]
  have hsub : (l.filter p).Sublist (List.insertionSort event_le l) :=
    List.sublist_insertionSort hpair (List.filter_sublist l)
  have hperm : ((List.insertionSort event_le l).filter p).Perm (l.filter p) :=
    (List.perm_insertionSort event_le l).filter p
  have hsub2 : (l.filter p).Sublist ((List.insertionSort event_le l).filter p) := by
    have h1 := hsub.filter p
    have hself : (l.filter p).filter p = l.filter p :=
      List.filter_eq_self.mpr fun a ha => List.of_mem_filter ha
    rwa [hself] at h1
  exact (hsub2.eq_of_length hperm.length_eq.symm).symm

/-- C6: `get_events` orders a known subject's trial events by the fixed
priority list `rltd, bltd0, bltd, release`; events absent from the list
sort after every listed event (their key is maximal) and keep their source
order among themselves, and the four-event example sorts as
`rltd, bltd, release, unknownX`. -/
theorem get_events_priority_order (repo : BySubject) (s : String) (t : Int)
    (trials : TrialMap) (hs : List.lookup s repo = some trials) :
    ∃ evts, get_events repo s t = .ok evts ∧
      evts.Perm (((List.lookup t trials).getD []).map (·.1)) ∧
      evts.Pairwise event_le ∧
      evts.filter (fun e => decide (e ∉ event_order)) =
        (((List.lookup t trials).getD []).map (·.1)).filter
          (fun e => decide (e ∉ event_order)) ∧
      sort_events ["release", "rltd", "bltd", "unknownX"] =
        ["rltd", "bltd", "release", "unknownX"] := by
  refine ⟨sort_events (((List.lookup t trials).getD []).map (·.1)),
    by simp [get_events, hs], ?_, ?_, ?_, by decide⟩
  · exact List.perm_insertionSort event_le _
  · exact List.sorted_insertionSort event_le _
  · exact filter_unlisted_sort_events _

/-- Witness for C6: the concrete catalog with events
`release, rltd, bltd, unknownX` in source order. -/
theorem get_events_priority_order_witness :
    List.lookup "S1" repoC6 =
        some [(2, [("release", []), ("rltd", []), ("bltd", []), ("unknownX", [])])] ∧
      ∃ evts, get_events repoC6 "S1" 2 = .ok evts ∧ evts.Pairwise event_le := by
  refine ⟨rfl, ?_⟩
  obtain ⟨evts, hok, -, hpair, -, -⟩ :=
    get_events_priority_order repoC6 "S1" 2
      [(2, [("release", []), ("rltd", []), ("bltd", []), ("unknownX", [])])] rfl
  exact ⟨evts, hok, hpair⟩

/-- When the (loop-invariant) probed candidate has no catalog frame, every
iteration of the `next_point` loop fails, and the call raises the probe
limit exception. -/
theorem next_point_go_stuck (env : NavEnv) (st cand : NavState)
    (hp : probe_frame env st = some cand)
    (hf : has_frame env cand.i_event cand.i_frame = some false) :
    ∀ fuel i, next_point_go env st fuel i = .error .exhausted := by
  intro fuel
  induction fuel with
  | zero => intro i; rfl
  | succ n ih =>
    intro i
    simp only [next_point_go, hp, hf]
    exact ih (i + 1)

/-- When the probed candidate has a catalog frame, the loop breaks on its
first iteration and the call returns the candidate (the post-loop
`i == limit` re-check does not fire before iteration 1000). -/
theorem next_point_go_found (env : NavEnv) (st cand : NavState)
    (fuel i : Nat) (hp : probe_frame env st = some cand)
    (hf : has_frame env cand.i_event cand.i_frame = some true)
    (hi : i + 1 ≠ 1000) :
    next_point_go env st (fuel + 1) i = .ok cand := by
  simp only [next_point_go, hp, hf]
  simp [hi]

/-- C5: with at least two events and every candidate frame present in the
catalog, `next_point` from (i_frame = N_frame - 1, i_event = 0,
i_kp = 0, i_cam = 0) wraps the frame index to 0 and carries into the event
axis, leaving the landmark and camera indices unchanged. -/
theorem odometer_carry (env : NavEnv) (e0 e1 : String) (nF : Nat)
    (h0 : env.event_names.get? 0 = some e0)
    (h1 : env.event_names.get? 1 = some e1)
    (hE : 2 ≤ env.event_names.length)
    (hF0 : (env.rel_frames_of e0).length = nF)
    (hnF : 0 < nF)
    (hF1 : 0 < (env.rel_frames_of e1).length)
    (hcat : ∀ e r, env.catalog_has_frame e r = true) :
    next_point env ⟨nF - 1, 0, 0, 0⟩ = .ok ⟨0, 1, 0, 0⟩ := by
  have h0' : env.event_names[0]? = some e0 := by simpa using h0
  have h1' : env.event_names[1]? = some e1 := by simpa using h1
  have hprobe : probe_frame env ⟨nF - 1, 0, 0, 0⟩ = some ⟨0, 1, 0, 0⟩ := by
    have hmod : (nF - 1 + 1) % nF = 0 := by
      rw [Nat.sub_add_cancel hnF, Nat.mod_self]
    have h1mod : (0 + 1) % env.event_names.length = 1 :=
      Nat.mod_eq_of_lt (by omega)
    have hne0 : env.rel_frames_of e0 ≠ [] := by
      intro hnil
      rw [hnil] at hF0
      simp at hF0
      omega
    simp [probe_frame, h0', hF0, hne0, hmod, h1mod]
    omega
  have hhas : has_frame env 1 0 = some true := by
    obtain ⟨r, hr⟩ : ∃ r, (env.rel_frames_of e1).get? 0 = some r :=
      ⟨_, List.get?_eq_get hF1⟩
    have hr' : (env.rel_frames_of e1)[0]? = some r := by simpa using hr
    simp [has_frame, h1', hr', hcat]
  show next_point_go env ⟨nF - 1, 0, 0, 0⟩ (999 + 1) 0 = .ok ⟨0, 1, 0, 0⟩
  exact next_point_go_found env _ _ 999 0 hprobe hhas (by decide)

/-- Witness for C5: a two-event catalog with all frames present carries
(frame = size - 1, event = 0) to (frame = 0, event = 1). -/
theorem odometer_carry_witness :
    2 ≤ envC5.event_names.length ∧
      next_point envC5 ⟨0, 0, 0, 0⟩ = .ok ⟨0, 1, 0, 0⟩ :=
  ⟨by decide,
    odometer_carry envC5 "a" "b" 1 rfl rfl (by decide) rfl (by decide)
      (by decide) (fun _ _ => rfl)⟩

/-- C2 (code bug): in `envC2` the immediate odometer candidate
(frame index 1) has no catalog frame while the candidate after it (frame
index 2) does, yet `next_point` raises the probe-limit exception instead of
landing on the second candidate: the loop recomputes `_probe_frame()` from
the unchanged instance state, so all 1000 probes examine the same
candidate. -/
theorem next_point_skip_is_broken :
    probe_frame envC2 ⟨0, 0, 0, 0⟩ = some ⟨1, 0, 0, 0⟩ ∧
      has_frame envC2 0 1 = some false ∧
      has_frame envC2 0 2 = some true ∧
      next_point envC2 ⟨0, 0, 0, 0⟩ = .error .exhausted :=
  ⟨rfl, rfl, rfl, next_point_go_stuck envC2 ⟨0, 0, 0, 0⟩ ⟨1, 0, 0, 0⟩ rfl rfl 1000 0⟩

/-- C3 (code bug): in `envC3` a candidate with an existing catalog frame
(event index 0, frame index 2) is two odometer steps away, yet `next_point`
fails with the probe-limit exception because the loop never advances past
the first candidate; the navigation indices are unchanged by the failed
call. -/
theorem next_point_exhaustion_mismatch :
    has_frame envC3 0 2 = some true ∧
      next_point envC3 ⟨0, 0, 0, 0⟩ = .error .exhausted ∧
      next_point_state envC3 ⟨0, 0, 0, 0⟩ = ⟨0, 0, 0, 0⟩ := by
  have h := next_point_go_stuck envC3 ⟨0, 0, 0, 0⟩ ⟨1, 0, 0, 0⟩ rfl rfl 1000 0
  exact ⟨rfl, h, by simp [next_point_state, next_point, h]⟩

/-- The last element of a cons, phrased through `Option.or`. -/
theorem getLast?_cons_or {α : Type} (a : α) (l : List α) :
    (a :: l).getLast? = l.getLast?.or (some a) := by
  cases l with
  | nil => rfl
  | cons b t =>
    rw [List.getLast?_cons_cons]
    cases h : (b :: t).getLast? with
    | none => exact absurd (List.getLast?_eq_none_iff.mp h) (by simp)
    | some c => rfl

/-- Dict assignment makes the key map to the assigned value. -/
theorem lookup_insert_obj_self (o : List (String × Marker)) (k : String)
    (v : Marker) : List.lookup k (insert_obj o k v) = some v := by
  induction o with
  | nil => simp [insert_obj, List.lookup]
  | cons kv rest ih =>
    obtain ⟨k1, v1⟩ := kv
    by_cases h : k1 = k
    · subst h
      simp [insert_obj, List.lookup]
    · have hb : (k1 == k) = false := by simp [h]
      have hb2 : (k == k1) = false := by simp [Ne.symm h]
      simp [insert_obj, List.lookup, hb, hb2, ih]

/-- Dict assignment leaves every other key unchanged. -/
theorem lookup_insert_obj_ne (o : List (String × Marker)) (k k' : String)
    (v : Marker) (h : k' ≠ k) :
    List.lookup k' (insert_obj o k v) = List.lookup k' o := by
  induction o with
  | nil =>
    have hb : (k' == k) = false := by simp [h]
    simp [insert_obj, List.lookup, hb]
  | cons kv rest ih =>
    obtain ⟨k1, v1⟩ := kv
    by_cases h1 : k1 = k
    · subst h1
      have hb : (k' == k1) = false := by simp [h]
      simp [insert_obj, List.lookup, hb]
    · have hb1 : (k1 == k) = false := by simp [h1]
      by_cases h2 : k' = k1
      · subst h2
        simp [insert_obj, List.lookup, hb1]
      · have hb2 : (k' == k1) = false := by simp [h2]
        simp [insert_obj, List.lookup, hb1, hb2, ih]

/-- The marker loop writes the key `pfx ++ "-" ++ lm` to the last matching
marker of the list (later matches overwrite earlier ones), leaving the key
untouched when no marker matches. -/
theorem lookup_foldl_step_self (pfx cam lm ev : String) :
    ∀ (ms : List Marker) (objs : List (String × Marker)),
      List.lookup (pfx ++ "-" ++ lm) (ms.foldl (sibling_step pfx cam lm ev) objs) =
        ((ms.filter fun m =>
            m.cam_id == cam && m.landmark == lm && m.event == ev).getLast?).or
          (List.lookup (pfx ++ "-" ++ lm) objs)
  | [], objs => by simp
  | m :: ms, objs => by
    rw [List.foldl_cons]
    by_cases h1 : m.cam_id = cam
    · by_cases h2 : m.landmark = lm
      · by_cases h3 : m.event = ev
        · have hstep : sibling_step pfx cam lm ev objs m =
              insert_obj objs (pfx ++ "-" ++ lm) m := by
            simp [sibling_step, h1, h2, h3]
          rw [hstep, lookup_foldl_step_self pfx cam lm ev ms _,
            List.filter_cons_of_pos (by simp [h1, h2, h3]),
            lookup_insert_obj_self, getLast?_cons_or, Option.or_assoc]
          rfl
        · have hstep : sibling_step pfx cam lm ev objs m = objs := by
            simp [sibling_step, h1, h2, h3]
          rw [hstep, lookup_foldl_step_self pfx cam lm ev ms objs,
            List.filter_cons_of_neg (by simp [h3])]
      · have hstep : sibling_step pfx cam lm ev objs m = objs := by
          simp [sibling_step, h1, h2]
        rw [hstep, lookup_foldl_step_self pfx cam lm ev ms objs,
          List.filter_cons_of_neg (by simp [h2])]
    · have hstep : sibling_step pfx cam lm ev objs m = objs := by
        simp [sibling_step, h1]
      rw [hstep, lookup_foldl_step_self pfx cam lm ev ms objs,
        List.filter_cons_of_neg (by simp [h1])]

/-- The marker loop only ever writes the key `pfx ++ "-" ++ lm`. -/
theorem lookup_foldl_step_ne (pfx cam lm ev k : String)
    (hk : k ≠ pfx ++ "-" ++ lm) :
    ∀ (ms : List Marker) (objs : List (String × Marker)),
      List.lookup k (ms.foldl (sibling_step pfx cam lm ev) objs) =
        List.lookup k objs
  | [], _ => rfl
  | m :: ms, objs => by
    rw [List.foldl_cons, lookup_foldl_step_ne pfx cam lm ev k hk ms _]
    by_cases h1 : m.cam_id = cam
    · by_cases h2 : m.landmark = lm
      · by_cases h3 : m.event = ev
        · have hstep : sibling_step pfx cam lm ev objs m =
              insert_obj objs (pfx ++ "-" ++ lm) m := by
            simp [sibling_step, h1, h2, h3]
          rw [hstep, lookup_insert_obj_ne _ _ _ _ hk]
        · simp [sibling_step, h1, h2, h3]
      · simp [sibling_step, h1, h2]
    · simp [sibling_step, h1]

/-- Over a list of sibling-index entries, the key `pfx ++ "-" ++ lm` maps
to the last matching marker across all entries, in processing order. -/
theorem lookup_entries_self (ctx : SiblingCtx) (pfx cam lm : String) :
    ∀ (entries : List FrameLookupEntry) (objs : List (String × Marker)),
      List.lookup (pfx ++ "-" ++ lm)
          (entries.foldl (fun o e => add_entry_markers ctx pfx cam lm e o) objs) =
        (((entries.map fun e =>
            (get_frame ctx.db ctx.subject_id ctx.trial_id e.rel_frame).filter
              fun m => m.cam_id == cam && m.landmark == lm && m.event == e.event).flatten).getLast?).or
          (List.lookup (pfx ++ "-" ++ lm) objs)
  | [], objs => by simp
  | e :: es, objs => by
    rw [List.foldl_cons, lookup_entries_self ctx pfx cam lm es _]
    show _ = ((((fun e =>
        (get_frame ctx.db ctx.subject_id ctx.trial_id e.rel_frame).filter
          fun m => m.cam_id == cam && m.landmark == lm && m.event == e.event) e ::
        es.map _).flatten).getLast?).or _
    rw [List.flatten_cons, List.getLast?_append, Option.or_assoc]
    unfold add_entry_markers
    rw [lookup_foldl_step_self pfx cam lm e.event _ objs]

/-- Over a list of sibling-index entries, every other key is untouched. -/
theorem lookup_entries_ne (ctx : SiblingCtx) (pfx cam lm k : String)
    (hk : k ≠ pfx ++ "-" ++ lm) :
    ∀ (entries : List FrameLookupEntry) (objs : List (String × Marker)),
      List.lookup k
          (entries.foldl (fun o e => add_entry_markers ctx pfx cam lm e o) objs) =
        List.lookup k objs
  | [], _ => rfl
  | e :: es, objs => by
    rw [List.foldl_cons, lookup_entries_ne ctx pfx cam lm k hk es _]
    unfold add_entry_markers
    exact lookup_foldl_step_ne pfx cam lm e.event k hk _ objs

/-- The two direction keys of the same landmark differ. -/
theorem prev_key_ne_next_key (lm : String) :
    ("prev-" ++ lm) ≠ ("next-" ++ lm) := by
  intro h
  have h2 : ("prev-" ++ lm).data = ("next-" ++ lm).data := by rw [h]
  rw [String.data_append, String.data_append] at h2
  exact absurd (List.append_inj h2 rfl).1 (by decide)

/-- Once the `prev` direction is flagged found, a later `prev` offset is
skipped entirely. -/
theorem process_offset_prev_found (ctx : SiblingCtx) (cam lm : String)
    (absF : Int) (acc : SiblingAcc) (po : String × Int) (hpo : po.1 = "prev")
    (hf : acc.found_prev = true) :
    process_offset ctx cam lm absF acc po = acc := by
  by_cases he : (ctx.lookup.by_frame_fn (absF + po.2)).isEmpty
  · simp [process_offset, he]
  · simp [process_offset, he, hpo, hf]

/-- A `next` offset neither clears the `prev` found flag nor touches the
`prev` key of the dict. -/
theorem process_offset_next_preserves (ctx : SiblingCtx) (cam lm : String)
    (absF : Int) (acc : SiblingAcc) (po : String × Int) (hpo : po.1 = "next") :
    (process_offset ctx cam lm absF acc po).found_prev = acc.found_prev ∧
      List.lookup ("prev-" ++ lm) (process_offset ctx cam lm absF acc po).objs =
        List.lookup ("prev-" ++ lm) acc.objs := by
  by_cases he : (ctx.lookup.by_frame_fn (absF + po.2)).isEmpty
  · simp [process_offset, he]
  · by_cases hfn : acc.found_next
    · simp [process_offset, he, hpo, hfn]
    · refine ⟨by simp [process_offset, he, hpo, hfn], ?_⟩
      simp [process_offset, he, hpo, hfn]
      exact lookup_entries_ne ctx "next" cam lm _ (prev_key_ne_next_key lm) _ _

/-- The first processed `prev` offset (offset -1) flags the direction found
whenever the absolute frame has entries, and writes the `prev` key to the
last matching marker of those entries (on top of whatever was there). -/
theorem process_offset_first_prev (ctx : SiblingCtx) (cam lm : String)
    (absF : Int) (acc : SiblingAcc) (hfp : acc.found_prev = false)
    (hents : ctx.lookup.by_frame_fn (absF + (-1)) ≠ []) :
    (process_offset ctx cam lm absF acc ("prev", -1)).found_prev = true ∧
      List.lookup ("prev-" ++ lm)
          (process_offset ctx cam lm absF acc ("prev", -1)).objs =
        ((sibling_matches ctx cam lm (absF + (-1))).getLast?).or
          (List.lookup ("prev-" ++ lm) acc.objs) := by
  have he : (ctx.lookup.by_frame_fn (absF + (-1))).isEmpty = false := by
    rw [← Bool.not_eq_true, List.isEmpty_iff]
    exact hents
  refine ⟨by simp [process_offset, he, hfp], ?_⟩
  simp [process_offset, he, hfp]
  exact lookup_entries_self ctx "prev" cam lm _ acc.objs

/-- C4 amended: `_sibling_frame_objects` examines offsets -1, +1, -2, +2 in
that order, and a direction is marked found as soon as an offset yields any
sibling-index entries, whether or not a marker matches; consequently the
`prev` result is the last matching marker of the offset -1 entries whenever
absolute frame - 1 has entries, and offset -2 can never overwrite it — in
particular, when both offsets -1 and -2 yield a matching marker, the `prev`
result is the offset -1 marker. -/
theorem sibling_prev_first_entries (ctx : SiblingCtx) (event : String)
    (rel_frame : Int) (cam lm : String) (abs_frame : Int)
    (habs : ctx.lookup.by_relframe_fn event rel_frame = some abs_frame)
    (hents : ctx.lookup.by_frame_fn (abs_frame + (-1)) ≠ []) :
    ∃ objs, sibling_frame_objects ctx event rel_frame cam lm = some objs ∧
      List.lookup ("prev-" ++ lm) objs =
        (sibling_matches ctx cam lm (abs_frame + (-1))).getLast? := by
  unfold sibling_frame_objects
  rw [habs]
  refine ⟨_, rfl, ?_⟩
  simp only [sibling_offsets, List.foldl_cons, List.foldl_nil]
  obtain ⟨h1f, h1l⟩ := process_offset_first_prev ctx cam lm abs_frame
    { objs := [], found_prev := false, found_next := false } rfl hents
  set acc1 := process_offset ctx cam lm abs_frame
    { objs := [], found_prev := false, found_next := false } ("prev", -1) with hacc1
  obtain ⟨h2f, h2l⟩ :=
    process_offset_next_preserves ctx cam lm abs_frame acc1 ("next", 1) rfl
  set acc2 := process_offset ctx cam lm abs_frame acc1 ("next", 1) with hacc2
  have h3 : process_offset ctx cam lm abs_frame acc2 ("prev", -2) = acc2 :=
    process_offset_prev_found ctx cam lm abs_frame acc2 ("prev", -2) rfl
      (by rw [h2f, h1f])
  rw [h3]
  obtain ⟨h4f, h4l⟩ :=
    process_offset_next_preserves ctx cam lm abs_frame acc2 ("next", 2) rfl
  rw [h4l, h2l, h1l]
  simp [List.lookup]

/-- C4 counterexample: offset -1 resolves to sibling-index entries none of
whose markers match the current camera and landmark, offset -2 holds a
matching marker, and yet the result keeps no `prev` marker at all — the
first matching marker (at offset -2) is not kept, because offset -1's mere
entries already satisfied the direction. -/
theorem sibling_prev_lost_cex :
    ctxC4.lookup.by_frame_fn (100 + (-1)) ≠ [] ∧
      sibling_matches ctxC4 "oe" "RElbow" (100 + (-1)) = [] ∧
      sibling_matches ctxC4 "oe" "RElbow" (100 + (-2)) = [markerC4] ∧
      ctxC4.lookup.by_relframe_fn "bltd0" 5 = some 100 ∧
      sibling_frame_objects ctxC4 "bltd0" 5 "oe" "RElbow" = some [] := by
  refine ⟨by decide, by decide, by decide, by decide, by decide⟩

/-- Witness for the amended C4: with matching markers stored at both
offsets -1 and -2, the `prev` result is the offset -1 marker. -/
theorem sibling_prev_first_entries_witness :
    ctxC4w.lookup.by_frame_fn (100 + (-1)) ≠ [] ∧
      ∃ objs, sibling_frame_objects ctxC4w "bltd0" 5 "oe" "RElbow" = some objs ∧
        List.lookup ("prev-" ++ "RElbow") objs =
          (sibling_matches ctxC4w "oe" "RElbow" (100 + (-1))).getLast? :=
  ⟨by decide,
    sibling_prev_first_entries ctxC4w "bltd0" 5 "oe" "RElbow" 100 rfl (by decide)⟩
